import Mathlib

/-!
Shallow embedding of `src/generate_report.py` (weekly-report-generator).

Modelling conventions:
* A calendar date is its proleptic-Gregorian ordinal, an `Int`; Python's
  `date.toordinal` maps 0001-01-01 (a Monday) to 1, so Python's
  `date.weekday()` of ordinal `n` is `(n - 1) % 7` with Monday = 0.
* After `load_data` every string column has been read as `str`, NaN filled
  with `""` and stripped, and the three date columns were parsed with
  `errors="coerce"`: an unparsable or empty date is `NaT`.  A record is
  therefore embedded as plain `String` fields plus `Option Int` dates
  (`none` = `NaT`/null).
* A pandas `DataFrame` is a `Frame`: the ordered column index (`cols`,
  a list of column names) plus the typed rows.  `validate` consults the
  column index exactly as the source does; row labels are modelled as
  positions in the row list.
* Comparisons against `NaT` (`pd.NaT >= d` etc.) are `False` in pandas;
  the embedded comparators on `Option Int` return `false` on `none`.
* `np.nan` results ("undefined" averages) are embedded as `none : Option ℚ`;
  `round(x, 2)` is embedded as exact rational rounding of `100 * x` to the
  nearest integer, ties to even, divided by 100.
-/

set_option autoImplicit false

namespace WeeklyReport

/-- ALLOWED_STATUSES from the source (membership is all the code uses, so a
list models the Python set). -/
def ALLOWED_STATUSES : List String := ["New", "In Progress", "Completed", "On Hold"]

/-- REQUIRED_COLUMNS from the source, in source order. -/
def REQUIRED_COLUMNS : List String :=
  ["claim_id", "branch", "line_of_service", "is_assignment", "received_date",
   "assigned_pm", "assigned_date", "status", "dash_job_id", "completed_date"]

/-- One claim record as it stands after `load_data`: string fields are
stripped strings (never null), date fields are parsed dates or `none`. -/
structure Record where
  claim_id : String
  branch : String
  line_of_service : String
  is_assignment : String
  received_date : Option Int
  assigned_pm : String
  assigned_date : Option Int
  status : String
  dash_job_id : String
  completed_date : Option Int
deriving Repr, DecidableEq

/-- A dataframe: the ordered column index together with the typed rows.
Rows carry the ten schema fields; `cols` is what `c in df.columns`
consults, and is where `df[c] = ...` adds derived columns. -/
structure Frame where
  cols : List String
  rows : List Record
deriving Repr, DecidableEq

/-- Python's `date.weekday()` on an ordinal: Monday = 0. -/
def pyWeekday (n : Int) : Int := (n - 1) % 7

/-- The `last_full_week` function (lines 32-40): `end = today - (weekday+1)`,
`start = end - 6`, for `today` the current date.  The current-date lookup is
I/O; the embedding takes `today` as the argument. -/
def last_full_week (today : Int) : Int × Int :=
  let weekday := pyWeekday today
  let e := today - (weekday + 1)
  let s := e - 6
  (s, e)

/-- Elementwise `df["received_date"] >= start` (a `NaT` compares `False`). -/
def dateGe (d : Option Int) (bound : Int) : Bool :=
  match d with
  | none => false
  | some x => bound ≤ x

/-- Elementwise `df["received_date"] <= end` (a `NaT` compares `False`). -/
def dateLe (d : Option Int) (bound : Int) : Bool :=
  match d with
  | none => false
  | some x => x ≤ bound

/-- The week mask of `filter_week` (line 55) for one row. -/
def inWeek (r : Record) (s e : Int) : Bool :=
  dateGe r.received_date s && dateLe r.received_date e

/-- The `filter_week` function (lines 54-56): keep the rows whose
`received_date` lies in `[s, e]`. -/
def filter_week (rows : List Record) (s e : Int) : List Record :=
  rows.filter (fun r => inWeek r s e)

/-- One validation issue: `row` is the row label (`none` models the `"-"`
placeholder of the schema issue), `field` and `issue` as in the source dicts. -/
structure Issue where
  row : Option Nat
  field : String
  issue : String
deriving Repr, DecidableEq

/-- Lower-case one character (ASCII range, which covers every token the code
compares against). -/
def lowerChar (c : Char) : Char :=
  if 'A' ≤ c ∧ c ≤ 'Z' then Char.ofNat (c.toNat + 32) else c

/-- Python's `str.lower` (adequate for the ASCII tokens the code compares). -/
def pyLower (s : String) : String := ⟨s.data.map lowerChar⟩

/-- The membership test of line 77, `row["is_assignment"].lower() in
{"yes", "y", "true", "1"}`. -/
def validateAssignGuard (r : Record) : Bool :=
  (pyLower r.is_assignment) ∈ ["yes", "y", "true", "1"]

/-- The elementwise test of line 90,
`df["is_assignment"].str.lower().isin(["yes","y","true","1"])`. -/
def kpiAssignGuard (r : Record) : Bool :=
  (pyLower r.is_assignment) ∈ ["yes", "y", "true", "1"]

/-- Row-level checks of `validate` (lines 68-81) for the row labelled `idx`,
in source order: invalid status, missing DASH job id, then (under the
assignment guard) missing PM and missing assigned date. -/
def rowIssues (idx : Nat) (r : Record) : List Issue :=
  (if r.status ≠ "" ∧ r.status ∉ ALLOWED_STATUSES then
    [⟨some idx, "status", "Invalid status"⟩] else []) ++
  (if r.status ∈ ["In Progress", "Completed", "On Hold"] ∧ r.dash_job_id = "" then
    [⟨some idx, "dash_job_id", "Missing DASH job id for active/closed claim"⟩] else []) ++
  (if validateAssignGuard r then
    (if r.assigned_pm = "" then
      [⟨some idx, "assigned_pm", "Missing assigned PM on assignment"⟩] else []) ++
    (if r.assigned_date = none then
      [⟨some idx, "assigned_date", "Missing assigned_date on assignment"⟩] else [])
   else [])

/-- The row loop of `validate` (lines 68-81): issues of the row labelled `n`
followed by the issues of the remaining rows. -/
def validateRows : Nat → List Record → List Issue
  | _, [] => []
  | n, r :: rest => rowIssues n r ++ validateRows (n + 1) rest

/-- The `validate` function (lines 58-83): a missing required column yields
the single schema issue and returns at once; otherwise the per-row issues
are collected in row order. -/
def validate (df : Frame) : List Issue :=
  let missing_cols := REQUIRED_COLUMNS.filter (fun c => ¬ df.cols.contains c)
  if missing_cols ≠ [] then
    [⟨none, "schema", "Missing required columns"⟩]
  else
    validateRows 0 df.rows

/-- Per-row `assign_lag_days` (line 98): day difference, `NaN` (`none`) if
either date is `NaT`. -/
def assign_lag_days (r : Record) : Option Int :=
  match r.assigned_date, r.received_date with
  | some a, some b => some (a - b)
  | _, _ => none

/-- Per-row `resolution_days` (line 99): day difference, `NaN` (`none`) if
either date is `NaT`. -/
def resolution_days (r : Record) : Option Int :=
  match r.completed_date, r.received_date with
  | some a, some b => some (a - b)
  | _, _ => none

/-- Round a rational to the nearest integer, ties to even: the embedding of
Python's `round` applied to an exact value. -/
def roundHalfEven (x : ℚ) : Int :=
  let f : Int := ⌊x⌋
  let frac : ℚ := x - (f : ℚ)
  if frac < 1/2 then f
  else if 1/2 < frac then f + 1
  else if f % 2 = 0 then f else f + 1

/-- Python's `round(x, 2)` over exact rationals. -/
def round2 (x : ℚ) : ℚ := ((roundHalfEven (100 * x) : Int) : ℚ) / 100

/-- Lines 102-103: `round(float(col.dropna().mean()), 2)` when the column has
any non-null entry, else `np.nan` (embedded as `none`). -/
def avgMetric (vals : List (Option Int)) : Option ℚ :=
  if vals.any (fun v => v.isSome) then
    let nonNull := vals.filterMap id
    some (round2 ((nonNull.sum : ℚ) / (nonNull.length : ℚ)))
  else none

/-- Elementwise `col > threshold` of lines 106 and 109: a `NaN` lag compares
`False`, so only non-null lags strictly above the threshold count. -/
def lagBreach (v : Option Int) (threshold : Int) : Bool :=
  match v with
  | none => false
  | some l => threshold < l

/-- The scalar part of the KPI Result, one field per `out[...]` entry of
`compute_kpis` (status counts keyed by the four enumerated statuses). -/
structure Kpis where
  totalClaims : Nat
  assignments : Nat
  nonAssignments : Nat
  statusNew : Nat
  statusInProgress : Nat
  statusCompleted : Nat
  statusOnHold : Nat
  avgAssignLag : Option ℚ
  avgResolution : Option ℚ
  slaAssignBreaches : Nat
  slaCompleteBreaches : Nat
deriving Repr, DecidableEq

/-- Pandas column assignment `df[c] = ...` on the column index: overwrite in
place when the name exists, else append it on the right. -/
def setCol (cols : List String) (c : String) : List String :=
  if cols.contains c then cols else cols ++ [c]

/-- Stable insertion step for `sortLe`. -/
def insertLe {α : Type} (le : α → α → Bool) (a : α) : List α → List α
  | [] => [a]
  | b :: l => if le a b then a :: b :: l else b :: insertLe le a l

/-- Stable insertion sort, the executable model for the library sorts the
source delegates to (`groupby` key ordering and `sort_values`). -/
def sortLe {α : Type} (le : α → α → Bool) : List α → List α
  | [] => []
  | a :: l => insertLe le a (sortLe le l)

/-- Lexicographic code-point order on character lists. -/
def charListLe : List Char → List Char → Bool
  | [], _ => true
  | _ :: _, [] => false
  | a :: as, b :: bs => if a < b then true else if b < a then false else charListLe as bs

/-- String order used by pandas `groupby` key sorting: Python compares
strings lexicographically by code point. -/
def strLe (a b : String) : Bool := charListLe a.data b.data

/-- Lines 114-116, first half: `df.groupby(key)["claim_id"].count()` lists the
distinct key values in ascending order with the size of each group (after
`load_data`, `claim_id` is a filled string column, so `count` is the group
size).  The keys being distinct, the choice of sorting algorithm is
immaterial here. -/
def groupCounts (key : Record → String) (rows : List Record) : List (String × Nat) :=
  (sortLe strLe ((rows.map key).eraseDups)).map
    (fun k => (k, rows.countP (fun r => key r = k)))

/-- Lines 114-116, second half: `sort_values("count", ascending=False)`.
Pandas computes an ascending argsort of the count column and reverses it;
the kind defaults to an unstable quicksort, so the relative order of equal
counts after the reversal is not specified by the source.  The embedding
uses a stable ascending sort followed by the reversal; no theorem below
relies on the tie order this particular choice produces. -/
def sortValuesCountDesc (t : List (String × Nat)) : List (String × Nat) :=
  (sortLe (fun a b => a.2 ≤ b.2) t).reverse

/-- Everything `compute_kpis` produces, plus the dataframe as it stands when
the function returns (lines 98-99 assign two derived columns into the
caller's frame, so the returned `frame` records that effect). -/
structure KpiOutput where
  kpis : Kpis
  by_branch : List (String × Nat)
  by_service : List (String × Nat)
  by_pm : List (String × Nat)
  frame : Frame
deriving Repr, DecidableEq

/-- The `compute_kpis` function (lines 85-118) over a frame whose ten schema
columns are present (the source would raise a `KeyError` otherwise). -/
def compute_kpis (df : Frame) (sla_assign_days sla_complete_days : Int) : KpiOutput :=
  let rows := df.rows
  let total := rows.length
  let assignments := rows.countP kpiAssignGuard
  let assignLags := rows.map assign_lag_days
  let resolutions := rows.map resolution_days
  let kpis : Kpis :=
    { totalClaims := total
      assignments := assignments
      nonAssignments := total - assignments
      statusNew := rows.countP (fun r => r.status = "New")
      statusInProgress := rows.countP (fun r => r.status = "In Progress")
      statusCompleted := rows.countP (fun r => r.status = "Completed")
      statusOnHold := rows.countP (fun r => r.status = "On Hold")
      avgAssignLag := avgMetric assignLags
      avgResolution := avgMetric resolutions
      slaAssignBreaches := rows.countP (fun r => lagBreach (assign_lag_days r) sla_assign_days)
      slaCompleteBreaches := rows.countP (fun r => lagBreach (resolution_days r) sla_complete_days) }
  { kpis := kpis
    by_branch := sortValuesCountDesc (groupCounts Record.branch rows)
    by_service := sortValuesCountDesc (groupCounts Record.line_of_service rows)
    by_pm := sortValuesCountDesc (groupCounts Record.assigned_pm rows)
    frame := ⟨setCol (setCol df.cols "assign_lag_days") "resolution_days", rows⟩ }

/-- A concrete record mirroring row "A" of the repository's test data. -/
def sampleA : Record :=
  ⟨"A", "X", "Mitigation", "Yes", some 10, "Alex", some 10, "Completed", "D-1", some 13⟩

/-- A concrete record mirroring row "B" of the repository's test data. -/
def sampleB : Record :=
  ⟨"B", "X", "Mitigation", "No", some 10, "", none, "New", "", none⟩

/-- A concrete record mirroring row "C" of the repository's test data. -/
def sampleC : Record :=
  ⟨"C", "Y", "Reconstruction", "Yes", some 10, "Jamie", some 11, "In Progress", "D-2", none⟩

/-- A concrete frame with the full schema and the three sample rows. -/
def sampleFrame : Frame := ⟨REQUIRED_COLUMNS, [sampleA, sampleB, sampleC]⟩

/-- A record whose `received_date` failed to parse (`NaT`). -/
def sampleNoDate : Record :=
  ⟨"D", "X", "Mitigation", "yes", none, "", none, "Weird", "", none⟩

/-! ## Helper lemmas -/

/-- Every issue `rowIssues i r` emits carries row label `i` and one of the
four row-level field names. -/
theorem rowIssues_shape (i : Nat) (r : Record) :
    ∀ iss ∈ rowIssues i r, iss.row = some i ∧
      (iss.field = "status" ∨ iss.field = "dash_job_id" ∨
       iss.field = "assigned_pm" ∨ iss.field = "assigned_date") := by
  intro iss h
  unfold rowIssues at h
  split_ifs at h <;>
    simp only [List.mem_append, List.mem_singleton, List.not_mem_nil, or_false,
      false_or] at h <;>
    (try casesm* _ ∨ _) <;> subst_vars <;> simp

/-- Every issue of the row loop started at label `n` carries a row label
`≥ n` and one of the four row-level field names. -/
theorem validateRows_shape (rows : List Record) :
    ∀ (n : Nat), ∀ iss ∈ validateRows n rows, ∃ j, n ≤ j ∧ iss.row = some j ∧
      (iss.field = "status" ∨ iss.field = "dash_job_id" ∨
       iss.field = "assigned_pm" ∨ iss.field = "assigned_date") := by
  induction rows with
  | nil => intro n iss h; simp [validateRows] at h
  | cons r rest ih =>
    intro n iss h
    rcases List.mem_append.mp h with h1 | h2
    · exact ⟨n, le_refl n, rowIssues_shape n r iss h1⟩
    · obtain ⟨j, hj, hrow, hf⟩ := ih (n + 1) iss h2
      exact ⟨j, by omega, hrow, hf⟩

/-- If every required column is present, `validate` runs the row loop. -/
theorem validate_of_full_schema (df : Frame)
    (h : ∀ c ∈ REQUIRED_COLUMNS, df.cols.contains c = true) :
    validate df = validateRows 0 df.rows := by
  have hnil : REQUIRED_COLUMNS.filter (fun c => ¬ df.cols.contains c) = [] := by
    refine List.filter_eq_nil_iff.mpr ?_
    intro c hc
    have hm : c ∈ df.cols := by simpa using h c hc
    simp [hm]
  simp only [validate]
  rw [hnil]
  simp

/-- If some required column is absent, `validate` returns the lone schema
issue. -/
theorem validate_of_missing_column (df : Frame)
    (h : ∃ c ∈ REQUIRED_COLUMNS, df.cols.contains c = false) :
    validate df = [⟨none, "schema", "Missing required columns"⟩] := by
  obtain ⟨c, hc, hfalse⟩ := h
  have hmem : c ∈ REQUIRED_COLUMNS.filter (fun c => ¬ df.cols.contains c) := by
    refine List.mem_filter.mpr ⟨hc, ?_⟩
    have hm : c ∉ df.cols := by simpa using hfalse
    simp [hm]
  have hne : REQUIRED_COLUMNS.filter (fun c => ¬ df.cols.contains c) ≠ [] :=
    List.ne_nil_of_mem hmem
  simp only [validate]
  rw [if_pos hne]

/-- One of the three active statuses is always an allowed status. -/
theorem active_allowed {s : String}
    (h : s = "In Progress" ∨ s = "Completed" ∨ s = "On Hold") :
    s ∈ ALLOWED_STATUSES := by
  rcases h with rfl | rfl | rfl <;> simp [ALLOWED_STATUSES]

/-- A single row contributes at most three issues. -/
theorem rowIssues_length_le (i : Nat) (r : Record) : (rowIssues i r).length ≤ 3 := by
  unfold rowIssues
  split_ifs with h1 h2 <;> (try simp_all) <;>
    first
      | omega
      | exact absurd (active_allowed h2.1) h1.2

/-- The invalid-status check and the missing-DASH-id check never both fire on
one row. -/
theorem status_dash_checks_exclusive (i : Nat) (r : Record) :
    ¬((rowIssues i r).any (fun iss => iss.field = "status") = true ∧
      (rowIssues i r).any (fun iss => iss.field = "dash_job_id") = true) := by
  unfold rowIssues
  split_ifs with h1 h2 <;> (try simp_all) <;>
    exact absurd (active_allowed h2.1) h1.2

/-- Rows with a label below the loop start contribute nothing. -/
theorem filter_validateRows_lt (rows : List Record) :
    ∀ (n i : Nat), i < n →
      (validateRows n rows).filter (fun iss => iss.row = some i) = [] := by
  intro n i hlt
  refine List.filter_eq_nil_iff.mpr ?_
  intro iss hmem
  obtain ⟨j, hj, hrow, _⟩ := validateRows_shape rows n iss hmem
  simp only [hrow, decide_eq_true_eq, Option.some.injEq]
  omega

/-- Filtering the collected issues by a row label recovers exactly that
row's own issues: rows never suppress one another. -/
theorem filter_validateRows (rows : List Record) :
    ∀ (n i : Nat) (hi : i < rows.length),
      (validateRows n rows).filter (fun iss => iss.row = some (n + i)) =
        rowIssues (n + i) (rows.get ⟨i, hi⟩) := by
  induction rows with
  | nil => intro n i hi; simp at hi
  | cons r rest ih =>
    intro n i hi
    show ((rowIssues n r ++ validateRows (n + 1) rest).filter
        (fun iss => iss.row = some (n + i))) = _
    rw [List.filter_append]
    cases i with
    | zero =>
      have h1 : (rowIssues n r).filter (fun iss => iss.row = some (n + 0)) =
          rowIssues n r := by
        refine List.filter_eq_self.mpr ?_
        intro iss hmem
        have := (rowIssues_shape n r iss hmem).1
        simp [this]
      have h2 : (validateRows (n + 1) rest).filter
          (fun iss => iss.row = some (n + 0)) = [] :=
        filter_validateRows_lt rest (n + 1) (n + 0) (by omega)
      rw [h1, h2, List.append_nil]
      rfl
    | succ j =>
      have h1 : (rowIssues n r).filter (fun iss => iss.row = some (n + (j + 1))) =
          [] := by
        refine List.filter_eq_nil_iff.mpr ?_
        intro iss hmem
        have := (rowIssues_shape n r iss hmem).1
        simp only [this, decide_eq_true_eq, Option.some.injEq]
        omega
      have hj : j < rest.length := by simpa using hi
      have h2 := ih (n + 1) j hj
      have harith : n + 1 + j = n + (j + 1) := by omega
      rw [harith] at h2
      rw [h1, h2, List.nil_append]
      rfl

/-- Unfolding lemma: the assignments KPI counts rows passing the guard. -/
theorem compute_kpis_assignments (df : Frame) (a c : Int) :
    (compute_kpis df a c).kpis.assignments = df.rows.countP kpiAssignGuard := rfl

/-- Unfolding lemma: the assign-lag average over the derived column. -/
theorem compute_kpis_avgAssignLag (df : Frame) (a c : Int) :
    (compute_kpis df a c).kpis.avgAssignLag =
      avgMetric (df.rows.map assign_lag_days) := rfl

/-- Unfolding lemma: the resolution average over the derived column. -/
theorem compute_kpis_avgResolution (df : Frame) (a c : Int) :
    (compute_kpis df a c).kpis.avgResolution =
      avgMetric (df.rows.map resolution_days) := rfl

/-- Unfolding lemma: the assign-SLA breach count. -/
theorem compute_kpis_slaAssignBreaches (df : Frame) (a c : Int) :
    (compute_kpis df a c).kpis.slaAssignBreaches =
      df.rows.countP (fun r => lagBreach (assign_lag_days r) a) := rfl

/-- Unfolding lemma: the complete-SLA breach count. -/
theorem compute_kpis_slaCompleteBreaches (df : Frame) (a c : Int) :
    (compute_kpis df a c).kpis.slaCompleteBreaches =
      df.rows.countP (fun r => lagBreach (resolution_days r) c) := rfl

/-- Unfolding lemma: the frame as `compute_kpis` leaves it. -/
theorem compute_kpis_frame (df : Frame) (a c : Int) :
    (compute_kpis df a c).frame =
      ⟨setCol (setCol df.cols "assign_lag_days") "resolution_days", df.rows⟩ := rfl

/-- Unfolding lemma: a non-null lag breaches iff strictly above threshold. -/
theorem lagBreach_some (l t : Int) : lagBreach (some l) t = decide (t < l) := rfl

/-- Unfolding lemma: a null lag never breaches. -/
theorem lagBreach_none (t : Int) : lagBreach none t = false := rfl

/-- The derived assign lag is null exactly when one of its dates is null. -/
theorem assign_lag_days_eq_none_iff (r : Record) :
    assign_lag_days r = none ↔ (r.assigned_date = none ∨ r.received_date = none) := by
  cases ha : r.assigned_date <;> cases hb : r.received_date <;>
    simp [assign_lag_days, ha, hb]

/-- The derived resolution lag is null exactly when one of its dates is null. -/
theorem resolution_days_eq_none_iff (r : Record) :
    resolution_days r = none ↔ (r.completed_date = none ∨ r.received_date = none) := by
  cases ha : r.completed_date <;> cases hb : r.received_date <;>
    simp [resolution_days, ha, hb]

/-- The average is the undefined marker exactly when every value is null. -/
theorem avgMetric_eq_none_iff (vals : List (Option Int)) :
    avgMetric vals = none ↔ ∀ v ∈ vals, v = none := by
  unfold avgMetric
  by_cases h : vals.any (fun v => v.isSome) = true
  · rw [if_pos h]
    refine iff_of_false (by simp) ?_
    intro hall
    obtain ⟨v, hv, hs⟩ := List.any_eq_true.mp h
    rw [hall v hv] at hs
    simp at hs
  · rw [if_neg h]
    refine iff_of_true rfl ?_
    intro v hv
    by_contra hne
    apply h
    refine List.any_eq_true.mpr ⟨v, hv, ?_⟩
    simpa [Option.isSome_iff_ne_none] using hne

/-- With at least one non-null value the average is the rounded mean and the
divisor (the number of non-null values) is nonzero. -/
theorem avgMetric_eq_some (vals : List (Option Int)) (h : ∃ v ∈ vals, v ≠ none) :
    (vals.filterMap id).length ≠ 0 ∧
    avgMetric vals = some (round2 (((vals.filterMap id).sum : ℚ) /
      ((vals.filterMap id).length : ℚ))) := by
  obtain ⟨v, hv, hne⟩ := h
  obtain ⟨x, rfl⟩ := Option.ne_none_iff_exists'.mp hne
  have hx : x ∈ vals.filterMap id := List.mem_filterMap.mpr ⟨some x, hv, rfl⟩
  have hlen : (vals.filterMap id).length ≠ 0 := by
    intro h0
    rw [List.length_eq_zero] at h0
    rw [h0] at hx
    simp at hx
  have hany : vals.any (fun v => v.isSome) = true :=
    List.any_eq_true.mpr ⟨some x, hv, rfl⟩
  exact ⟨hlen, by unfold avgMetric; rw [if_pos hany]⟩

/-! ## Claim theorems -/

/-- C3: when all required columns are present, filtering the collected
issues by a row label recovers exactly that row's own issues (issues for one
row never suppress checks on another row), each row yields at most three
issues, and the invalid-status check and the missing-DASH-id check never
both fire on the same row. -/
theorem c3_row_checks_bounded_independent (df : Frame)
    (h : ∀ c ∈ REQUIRED_COLUMNS, df.cols.contains c = true) :
    (∀ (i : Nat) (hi : i < df.rows.length),
      (validate df).filter (fun iss => iss.row = some i) =
        rowIssues i (df.rows.get ⟨i, hi⟩)) ∧
    (∀ (i : Nat) (r : Record), (rowIssues i r).length ≤ 3) ∧
    (∀ (i : Nat) (r : Record),
      ¬((rowIssues i r).any (fun iss => iss.field = "status") = true ∧
        (rowIssues i r).any (fun iss => iss.field = "dash_job_id") = true)) := by
  refine ⟨?_, rowIssues_length_le, status_dash_checks_exclusive⟩
  intro i hi
  rw [validate_of_full_schema df h]
  simpa using filter_validateRows df.rows 0 i hi

/-- Witness for C3 at the three-row sample frame. -/
theorem c3_row_checks_bounded_independent_check :
    (∀ c ∈ REQUIRED_COLUMNS, sampleFrame.cols.contains c = true) ∧
    (rowIssues 0 sampleA).length ≤ 3 := by
  have h : ∀ c ∈ REQUIRED_COLUMNS, sampleFrame.cols.contains c = true := by decide
  exact ⟨h, (c3_row_checks_bounded_independent sampleFrame h).2.1 0 sampleA⟩

/-- C4: in default mode the window is `[today - weekday - 7,
today - weekday - 1]`; it spans exactly 7 days, starts on a Monday, ends on
the most recent Sunday strictly before `today`, and never contains `today`. -/
theorem c4_last_full_week_window (today : Int) :
    (last_full_week today).1 = today - pyWeekday today - 7 ∧
    (last_full_week today).2 = today - pyWeekday today - 1 ∧
    (last_full_week today).2 - (last_full_week today).1 = 6 ∧
    pyWeekday (last_full_week today).1 = 0 ∧
    pyWeekday (last_full_week today).2 = 6 ∧
    (last_full_week today).2 < today ∧
    (∀ d : Int, (last_full_week today).2 < d → d < today → pyWeekday d ≠ 6) ∧
    ¬((last_full_week today).1 ≤ today ∧ today ≤ (last_full_week today).2) := by
  simp only [last_full_week, pyWeekday]
  refine ⟨by omega, by omega, by omega, by omega, by omega, by omega, ?_, by omega⟩
  intro d h1 h2
  omega

/-- Witness for C4 at `today = 100` (a Tuesday), checking `d = 99`. -/
theorem c4_last_full_week_window_check :
    pyWeekday 99 ≠ 6 ∧ (last_full_week 100).2 < 100 := by
  have h := c4_last_full_week_window 100
  exact ⟨h.2.2.2.2.2.2.1 99 (by decide) (by decide), h.2.2.2.2.2.1⟩

/-- C5: a missing required column yields exactly the single schema-level
issue and no row-level checks run; with the full schema present no
schema-level issue is ever emitted. -/
theorem c5_schema_gate (df : Frame) :
    ((∃ c ∈ REQUIRED_COLUMNS, df.cols.contains c = false) →
      validate df = [⟨none, "schema", "Missing required columns"⟩]) ∧
    ((∀ c ∈ REQUIRED_COLUMNS, df.cols.contains c = true) →
      ∀ iss ∈ validate df, iss.field ≠ "schema") := by
  constructor
  · exact validate_of_missing_column df
  · intro h iss hmem
    rw [validate_of_full_schema df h] at hmem
    obtain ⟨j, _, _, hf⟩ := validateRows_shape df.rows 0 iss hmem
    rcases hf with hf | hf | hf | hf <;> simp [hf]

/-- Witness for C5: a frame lacking `branch` gets exactly the schema issue;
the full-schema sample frame gets none. -/
theorem c5_schema_gate_check :
    validate ⟨["claim_id"], [sampleA]⟩ =
      [⟨none, "schema", "Missing required columns"⟩] ∧
    ∀ iss ∈ validate sampleFrame, iss.field ≠ "schema" := by
  constructor
  · exact (c5_schema_gate ⟨["claim_id"], [sampleA]⟩).1 ⟨"branch", by decide, by decide⟩
  · exact (c5_schema_gate sampleFrame).2 (by decide)

/-- C9: a record whose `received_date` is null is outside every week window
and absent from every `filter_week` result, while `validate` never emits an
issue on the `received_date` field, so such a record vanishes silently. -/
theorem c9_null_received_date_silent :
    (∀ r : Record, r.received_date = none →
      (∀ s e : Int, inWeek r s e = false) ∧
      (∀ (rows : List Record) (s e : Int), r ∉ filter_week rows s e)) ∧
    (∀ (df : Frame), ∀ iss ∈ validate df, iss.field ≠ "received_date") := by
  constructor
  · intro r h
    have hw : ∀ s e : Int, inWeek r s e = false := by
      intro s e
      simp [inWeek, dateGe, h]
    refine ⟨hw, ?_⟩
    intro rows s e hmem
    have hp := (List.mem_filter.mp hmem).2
    rw [hw s e] at hp
    exact absurd hp (by simp)
  · intro df iss hmem
    by_cases h : ∀ c ∈ REQUIRED_COLUMNS, df.cols.contains c = true
    · rw [validate_of_full_schema df h] at hmem
      obtain ⟨j, _, _, hf⟩ := validateRows_shape df.rows 0 iss hmem
      rcases hf with hf | hf | hf | hf <;> simp [hf]
    · push_neg at h
      obtain ⟨c, hc, hng⟩ := h
      have hfalse : df.cols.contains c = false := by
        simpa using hng
      rw [validate_of_missing_column df ⟨c, hc, hfalse⟩] at hmem
      simp only [List.mem_singleton] at hmem
      rw [hmem]
      simp

/-- Witness for C9 at a record whose `received_date` failed to parse. -/
theorem c9_null_received_date_silent_check :
    sampleNoDate.received_date = none ∧ inWeek sampleNoDate 0 100 = false ∧
    sampleNoDate ∉ filter_week [sampleNoDate] 0 100 := by
  have h := c9_null_received_date_silent.1 sampleNoDate rfl
  exact ⟨rfl, h.1 0 100, h.2 [sampleNoDate] 0 100⟩

/-- C6: each average is the undefined marker iff every row has a null lag
(a null source date), and otherwise it is the rounded mean of the non-null
lags, computed with a provably nonzero divisor. -/
theorem c6_avg_undefined_iff_all_null (df : Frame) (a c : Int) :
    ((compute_kpis df a c).kpis.avgAssignLag = none ↔
      ∀ r ∈ df.rows, r.assigned_date = none ∨ r.received_date = none) ∧
    ((∃ r ∈ df.rows, ¬(r.assigned_date = none ∨ r.received_date = none)) →
      ((df.rows.map assign_lag_days).filterMap id).length ≠ 0 ∧
      (compute_kpis df a c).kpis.avgAssignLag =
        some (round2 ((((df.rows.map assign_lag_days).filterMap id).sum : ℚ) /
          (((df.rows.map assign_lag_days).filterMap id).length : ℚ)))) ∧
    ((compute_kpis df a c).kpis.avgResolution = none ↔
      ∀ r ∈ df.rows, r.completed_date = none ∨ r.received_date = none) ∧
    ((∃ r ∈ df.rows, ¬(r.completed_date = none ∨ r.received_date = none)) →
      ((df.rows.map resolution_days).filterMap id).length ≠ 0 ∧
      (compute_kpis df a c).kpis.avgResolution =
        some (round2 ((((df.rows.map resolution_days).filterMap id).sum : ℚ) /
          (((df.rows.map resolution_days).filterMap id).length : ℚ)))) := by
  refine ⟨?_, ?_, ?_, ?_⟩
  · rw [compute_kpis_avgAssignLag, avgMetric_eq_none_iff]
    constructor
    · intro hall r hr
      exact (assign_lag_days_eq_none_iff r).mp
        (hall (assign_lag_days r) (List.mem_map_of_mem _ hr))
    · intro hall v hv
      obtain ⟨r, hr, rfl⟩ := List.mem_map.mp hv
      exact (assign_lag_days_eq_none_iff r).mpr (hall r hr)
  · intro hex
    obtain ⟨r, hr, hne⟩ := hex
    have hlag : assign_lag_days r ≠ none :=
      fun h0 => hne ((assign_lag_days_eq_none_iff r).mp h0)
    rw [compute_kpis_avgAssignLag]
    exact avgMetric_eq_some _ ⟨assign_lag_days r, List.mem_map_of_mem _ hr, hlag⟩
  · rw [compute_kpis_avgResolution, avgMetric_eq_none_iff]
    constructor
    · intro hall r hr
      exact (resolution_days_eq_none_iff r).mp
        (hall (resolution_days r) (List.mem_map_of_mem _ hr))
    · intro hall v hv
      obtain ⟨r, hr, rfl⟩ := List.mem_map.mp hv
      exact (resolution_days_eq_none_iff r).mpr (hall r hr)
  · intro hex
    obtain ⟨r, hr, hne⟩ := hex
    have hlag : resolution_days r ≠ none :=
      fun h0 => hne ((resolution_days_eq_none_iff r).mp h0)
    rw [compute_kpis_avgResolution]
    exact avgMetric_eq_some _ ⟨resolution_days r, List.mem_map_of_mem _ hr, hlag⟩

/-- Witness for C6 at the sample frame, which has non-null lags. -/
theorem c6_avg_undefined_iff_all_null_check :
    (∃ r ∈ sampleFrame.rows, ¬(r.assigned_date = none ∨ r.received_date = none)) ∧
    ((sampleFrame.rows.map assign_lag_days).filterMap id).length ≠ 0 := by
  have hex : ∃ r ∈ sampleFrame.rows,
      ¬(r.assigned_date = none ∨ r.received_date = none) := by decide
  exact ⟨hex, ((c6_avg_undefined_iff_all_null sampleFrame 1 7).2.1 hex).1⟩

/-- C7: raising either SLA threshold can only lower the corresponding breach
count, and a lag exactly equal to the threshold is never a breach. -/
theorem c7_sla_breach_monotone (df : Frame) (a a2 c c2 : Int)
    (ha : a ≤ a2) (hc : c ≤ c2) :
    (compute_kpis df a2 c).kpis.slaAssignBreaches ≤
      (compute_kpis df a c).kpis.slaAssignBreaches ∧
    (compute_kpis df a c2).kpis.slaCompleteBreaches ≤
      (compute_kpis df a c).kpis.slaCompleteBreaches ∧
    (∀ r : Record, assign_lag_days r = some a →
      lagBreach (assign_lag_days r) a = false) ∧
    (∀ r : Record, resolution_days r = some c →
      lagBreach (resolution_days r) c = false) := by
  refine ⟨?_, ?_, ?_, ?_⟩
  · rw [compute_kpis_slaAssignBreaches, compute_kpis_slaAssignBreaches]
    apply List.countP_mono_left
    intro r _ hp
    cases hv : assign_lag_days r with
    | none => rw [hv, lagBreach_none] at hp; exact absurd hp (by simp)
    | some l =>
      rw [hv] at hp
      rw [lagBreach_some, decide_eq_true_eq] at hp ⊢
      omega
  · rw [compute_kpis_slaCompleteBreaches, compute_kpis_slaCompleteBreaches]
    apply List.countP_mono_left
    intro r _ hp
    cases hv : resolution_days r with
    | none => rw [hv, lagBreach_none] at hp; exact absurd hp (by simp)
    | some l =>
      rw [hv] at hp
      rw [lagBreach_some, decide_eq_true_eq] at hp ⊢
      omega
  · intro r hv
    rw [hv, lagBreach_some]
    simp
  · intro r hv
    rw [hv, lagBreach_some]
    simp

/-- Witness for C7: thresholds 1 ≤ 2 and 7 ≤ 8 at the sample frame. -/
theorem c7_sla_breach_monotone_check :
    ((1 : Int) ≤ 2) ∧
    (compute_kpis sampleFrame 2 7).kpis.slaAssignBreaches ≤
      (compute_kpis sampleFrame 1 7).kpis.slaAssignBreaches := by
  exact ⟨by decide,
    (c7_sla_breach_monotone sampleFrame 1 2 7 8 (by decide) (by decide)).1⟩

/-- C8: the KPI assignment test and the validator's assignment guard are the
same function, `Assignments` counts exactly the rows the validator treats as
assignments, and a row gets a missing-PM or missing-date issue exactly when
it passes that shared guard and the corresponding field is missing. -/
theorem c8_assignment_guard_agreement :
    (∀ r : Record, kpiAssignGuard r = validateAssignGuard r) ∧
    (∀ (df : Frame) (a c : Int),
      (compute_kpis df a c).kpis.assignments = df.rows.countP validateAssignGuard) ∧
    (∀ (i : Nat) (r : Record),
      ((∃ iss ∈ rowIssues i r,
          iss.field = "assigned_pm" ∨ iss.field = "assigned_date") ↔
        (kpiAssignGuard r = true ∧
          (r.assigned_pm = "" ∨ r.assigned_date = none)))) := by
  refine ⟨fun r => rfl, fun df a c => rfl, ?_⟩
  intro i r
  show _ ↔ (validateAssignGuard r = true ∧ _)
  unfold rowIssues
  split_ifs with h1 h2 h3 <;> simp_all

/-- Witness for C8 at a sample record. -/
theorem c8_assignment_guard_agreement_check :
    kpiAssignGuard sampleA = validateAssignGuard sampleA :=
  c8_assignment_guard_agreement.1 sampleA

/-- C10: on the empty record set with the full schema, every count is zero,
both averages are the undefined marker, and all three breakdown tables are
empty. -/
theorem c10_empty_input (a c : Int) :
    (compute_kpis ⟨REQUIRED_COLUMNS, []⟩ a c).kpis =
      ⟨0, 0, 0, 0, 0, 0, 0, none, none, 0, 0⟩ ∧
    (compute_kpis ⟨REQUIRED_COLUMNS, []⟩ a c).by_branch = [] ∧
    (compute_kpis ⟨REQUIRED_COLUMNS, []⟩ a c).by_service = [] ∧
    (compute_kpis ⟨REQUIRED_COLUMNS, []⟩ a c).by_pm = [] :=
  ⟨rfl, rfl, rfl, rfl⟩

/-- Witness for C10 at the default thresholds. -/
theorem c10_empty_input_check :
    (compute_kpis ⟨REQUIRED_COLUMNS, []⟩ 1 7).by_branch = [] :=
  (c10_empty_input 1 7).2.1

/-- Counterexample to C1 as stated: `compute_kpis` does change the frame it
is handed (it assigns two derived columns into it). -/
theorem c1_pure_input_counterexample :
    (compute_kpis sampleFrame 1 7).frame ≠ sampleFrame := by decide

/-- C1 amended: the only change `compute_kpis` makes to its input is
appending the two derived columns `assign_lag_days` and `resolution_days`;
the rows and all pre-existing columns are unchanged. -/
theorem c1_amended_only_adds_derived_columns (df : Frame) (a c : Int)
    (h1 : df.cols.contains "assign_lag_days" = false)
    (h2 : df.cols.contains "resolution_days" = false) :
    (compute_kpis df a c).frame.rows = df.rows ∧
    (compute_kpis df a c).frame.cols =
      df.cols ++ ["assign_lag_days", "resolution_days"] := by
  rw [compute_kpis_frame]
  refine ⟨rfl, ?_⟩
  have hmem1 : "assign_lag_days" ∉ df.cols := by simpa using h1
  have hmem2 : "resolution_days" ∉ df.cols := by simpa using h2
  have e1 : setCol df.cols "assign_lag_days" = df.cols ++ ["assign_lag_days"] := by
    unfold setCol
    rw [if_neg]
    simpa using hmem1
  have e2 : setCol (df.cols ++ ["assign_lag_days"]) "resolution_days" =
      (df.cols ++ ["assign_lag_days"]) ++ ["resolution_days"] := by
    unfold setCol
    rw [if_neg]
    simp [hmem2]
  show setCol (setCol df.cols "assign_lag_days") "resolution_days" = _
  rw [e1, e2, List.append_assoc]
  rfl

/-- Witness for C1's amended statement at the sample frame. -/
theorem c1_amended_only_adds_derived_columns_check :
    sampleFrame.cols.contains "assign_lag_days" = false ∧
    (compute_kpis sampleFrame 1 7).frame.cols =
      sampleFrame.cols ++ ["assign_lag_days", "resolution_days"] :=
  ⟨by decide,
    (c1_amended_only_adds_derived_columns sampleFrame 1 7 (by decide) (by decide)).2⟩

end WeeklyReport

section SanityChecks
open WeeklyReport

-- The embedding reproduces the expectations of `tests/test_metrics.py`
-- on the same three-row input.
example : (compute_kpis sampleFrame 1 7).kpis.totalClaims = 3 := by decide
example : (compute_kpis sampleFrame 1 7).kpis.statusCompleted = 1 := by decide
example : ((compute_kpis sampleFrame 1 7).by_branch.map Prod.snd).sum = 3 := by decide
-- The spec's §8 scenario: this exact row set yields zero validation issues.
example : validate sampleFrame = [] := by decide
example : (compute_kpis sampleFrame 1 7).kpis.assignments = 2 := by decide
example : (compute_kpis sampleFrame 1 7).kpis.nonAssignments = 1 := by decide
example : (compute_kpis sampleFrame 1 7).by_branch = [("X", 2), ("Y", 1)] := by decide

end SanityChecks
